import Mathlib

/-!
Shallow embedding of the cart/financing logic of the `autosalon` storefront.

Sources embedded:
* `src/hooks/useCart.ts` — the `ApiClient` cart methods backed by the
  `localStorage` key `cart` (`getCartItems`, `addToCart`, `updateCartItem`,
  `removeFromCart`, `clearCart`, `getCartTotal`).
* the Cart checkout page (unnamed source, `Cart` component) — promo-code
  lookup (`handleApplyPromoCode`), `discountAmount` / `finalTotal`, and the
  financing calculator `calculateMonthlyPayment`.
* `src/pages/CarDetail.tsx` — its local `calculateMonthlyPayment` variant.

Modelling conventions:
* JavaScript numbers are embedded as exact rationals (`ℚ`); the code applies
  no rounding internally, and every claim under scrutiny is about the exact
  arithmetic of the formulas.
* The JSON layer of `localStorage` is abstracted into `CartSlot`:
  `JSON.stringify` of an item list stores `CartSlot.stored items`,
  a missing key (or empty string, which the `if (!items)` guard also
  catches) is `CartSlot.missing`, and a stored string that `JSON.parse`
  cannot turn back into a list of cart items is `CartSlot.corrupt`.
  `JSON.parse` throwing is modelled as `Except.error CartError.parseFailure`.
* The catalog service (`getCarById`) is an environment parameter
  `Catalog : String → Option Car`: `some car` for a successful fetch,
  `none` when the fetch throws (network failure / missing car).  One call
  of an `ApiClient` method sees a single fixed catalog.
* Thrown `Error`s are modelled by the inductive `CartError`; each method
  returns its result together with the storage slot after the call, the
  original slot when it throws (the code throws before any `setItem`).
* `Partial<CartItem>` is `CartItemPatch`: a key absent from the object
  literal is `none`, a present key is `some value`; the spread
  `{ ...item, ...patch }` is `applyPatch`.
-/

/-- `Car` record of `src/lib/api` (the `Car` interface). Prices and other
numeric fields are exact rationals. -/
structure Car where
  _id : String
  brand : String
  model : String
  year : ℚ
  price : ℚ
  mileage : ℚ
  fuelType : String
  transmission : String
  bodyType : String
  engineVolume : ℚ
  power : ℚ
  color : String
  vin : String
  status : String
  images : List String
  features : List String
  description : String
  isNew : Bool
  isHit : Bool
  createdAt : String
  updatedAt : String
deriving DecidableEq, Repr

/-- The financing selection type union `'cash' | 'credit' | 'leasing'`. -/
inductive FinancingType where
  | cash
  | credit
  | leasing
deriving DecidableEq, Repr

/-- The optional `financing` object of a cart item. -/
structure Financing where
  type : FinancingType
  downPayment : Option ℚ
  loanTerm : Option ℚ
  monthlyPayment : Option ℚ
deriving DecidableEq, Repr

/-- `CartItem` interface of `src/lib/api`. -/
structure CartItem where
  _id : String
  userId : String
  carId : String
  car : Option Car
  quantity : ℚ
  addedAt : String
  notes : Option String
  financing : Option Financing
deriving DecidableEq, Repr

/-- `Partial<CartItem>`: each field is `some v` when the key is present in
the object literal and `none` when absent. -/
structure CartItemPatch where
  _id : Option String := none
  userId : Option String := none
  carId : Option String := none
  car : Option Car := none
  quantity : Option ℚ := none
  addedAt : Option String := none
  notes : Option String := none
  financing : Option Financing := none
deriving DecidableEq, Repr

/-- The empty object literal `{}` (no keys present). -/
def CartItemPatch.empty : CartItemPatch := {}

/-- The spread `{ ...item, ...patch }`: keys present in the patch win. -/
def applyPatch (item : CartItem) (p : CartItemPatch) : CartItem :=
  { _id := p._id.getD item._id
    userId := p.userId.getD item.userId
    carId := p.carId.getD item.carId
    car := match p.car with | some c => some c | none => item.car
    quantity := p.quantity.getD item.quantity
    addedAt := p.addedAt.getD item.addedAt
    notes := match p.notes with | some n => some n | none => item.notes
    financing := match p.financing with | some f => some f | none => item.financing }

/-- Errors thrown by the `ApiClient` cart methods. -/
inductive CartError where
  /-- `JSON.parse` threw on the stored `cart` value. -/
  | parseFailure
  /-- `addToCart`: the car is already in the cart. -/
  | duplicateItem
  /-- `updateCartItem`: no item with the given `_id`. -/
  | itemNotFound
deriving DecidableEq, Repr

/-- The `localStorage` slot under the key `cart`. -/
inductive CartSlot where
  /-- No value stored under `cart` (or the empty string, equally falsy). -/
  | missing
  /-- A stored string that does not deserialize to a list of cart items. -/
  | corrupt
  /-- The serialization of `items`. -/
  | stored (items : List CartItem)
deriving DecidableEq, Repr

/-- The catalog service: `getCarById` returns `some car` on success,
`none` when the underlying fetch fails. -/
def Catalog : Type := String → Option Car

/-- `localStorage.getItem('cart')` followed by the `if (!items) return []`
guard and `JSON.parse`. -/
def loadStored (slot : CartSlot) : Except CartError (List CartItem) :=
  match slot with
  | .missing => .ok []
  | .corrupt => .error .parseFailure
  | .stored items => .ok items

/-- One step of the enrichment loop in `getCartItems`: fetch the car for
the item and attach it; on a failed fetch the item is returned as is. -/
def enrichItem (cat : Catalog) (item : CartItem) : CartItem :=
  match cat item.carId with
  | some c => { item with car := some c }
  | none => item

/-- `ApiClient.getCartItems`: load the stored sequence and enrich every
item with its live car data (best effort). -/
def getCartItems (cat : Catalog) (slot : CartSlot) : Except CartError (List CartItem) :=
  match loadStored slot with
  | .error e => .error e
  | .ok cartItems => .ok (cartItems.map (enrichItem cat))

/-- The object literal built by `ApiClient.addToCart` before the caller
options are spread in: generated `_id` (`Date.now().toString()`), the
static `guest` user, the requested car, quantity 1 and the current
timestamp. `newId` and `now` are the nondeterministic environment values. -/
def newCartItem (newId now carId : String) : CartItem :=
  { _id := newId
    userId := "guest"
    carId := carId
    car := none
    quantity := 1
    addedAt := now
    notes := none
    financing := none }

/-- `ApiClient.addToCart`: re-reads the cart, rejects a duplicate `carId`,
appends the new item (caller options spread over the defaults), persists,
then attaches the fetched car to the returned item only (the storage write
has already happened). Returns the result together with the slot after the
call. -/
def addToCart (cat : Catalog) (newId now : String) (carId : String)
    (options : CartItemPatch) (slot : CartSlot) :
    Except CartError CartItem × CartSlot :=
  match getCartItems cat slot with
  | .error e => (.error e, slot)
  | .ok cartItems =>
    if cartItems.any (fun item => item.carId == carId) then
      (.error .duplicateItem, slot)
    else
      let newItem := applyPatch (newCartItem newId now carId) options
      let updatedCart := cartItems ++ [newItem]
      let returned :=
        match cat carId with
        | some c => { newItem with car := some c }
        | none => newItem
      (.ok returned, .stored updatedCart)

/-- `cartItems[itemIndex] = updatedItem`: replace the first item whose
`_id` matches (the index found by `findIndex`). -/
def replaceFirst (items : List CartItem) (itemId : String) (updated : CartItem) :
    List CartItem :=
  match items with
  | [] => []
  | it :: rest =>
    if it._id == itemId then updated :: rest
    else it :: replaceFirst rest itemId updated

/-- `ApiClient.updateCartItem`: re-reads the cart, fails when no item has
the given `_id`, otherwise spreads the patch over the (enriched) item and
persists the whole sequence. -/
def updateCartItem (cat : Catalog) (itemId : String) (updates : CartItemPatch)
    (slot : CartSlot) : Except CartError CartItem × CartSlot :=
  match getCartItems cat slot with
  | .error e => (.error e, slot)
  | .ok cartItems =>
    match cartItems.find? (fun item => item._id == itemId) with
    | none => (.error .itemNotFound, slot)
    | some item =>
      let updatedItem := applyPatch item updates
      (.ok updatedItem, .stored (replaceFirst cartItems itemId updatedItem))

/-- `ApiClient.removeFromCart`: re-reads the cart and persists the
(enriched) sequence with every matching item filtered out; no error when
nothing matches. -/
def removeFromCart (cat : Catalog) (itemId : String) (slot : CartSlot) :
    Except CartError Unit × CartSlot :=
  match getCartItems cat slot with
  | .error e => (.error e, slot)
  | .ok cartItems =>
    (.ok (), .stored (cartItems.filter (fun item => !(item._id == itemId))))

/-- `ApiClient.clearCart`: `localStorage.removeItem('cart')`. -/
def clearCart (_slot : CartSlot) : Except CartError Unit × CartSlot :=
  (.ok (), .missing)

/-- The contribution of one enriched item to the total:
`(item.car?.price || 0) * item.quantity`. A resolved car whose price is
`0` makes the `||` fall through to `0`, which is the same value. -/
def itemContribution (item : CartItem) : ℚ :=
  (match item.car with | some c => c.price | none => 0) * item.quantity

/-- `ApiClient.getCartTotal`: reduce over the enriched items. -/
def getCartTotal (cat : Catalog) (slot : CartSlot) : Except CartError ℚ :=
  match getCartItems cat slot with
  | .error e => .error e
  | .ok cartItems => .ok (cartItems.foldl (fun total item => total + itemContribution item) 0)

/-- `calculateMonthlyPayment` of the Cart checkout page: amortized monthly
payment from price, down payment, term in months and annual rate in
percent. `Math.pow(1 + monthlyRate, months)` with the integer `months` of
the page (slider values / `loanTerm`) is the rational power. -/
def calculateMonthlyPayment (price downPayment : ℚ) (months : ℕ)
    (rate : ℚ) : ℚ :=
  let loanAmount := price - downPayment
  let monthlyRate := rate / 100 / 12
  if monthlyRate = 0 then loanAmount / months
  else
    loanAmount * (monthlyRate * (1 + monthlyRate) ^ months) /
      ((1 + monthlyRate) ^ months - 1)

/-- `calculateMonthlyPayment` of `src/pages/CarDetail.tsx`: the rate is
hard-wired to 12.5% annual and there is no zero-rate branch. -/
def calculateMonthlyPaymentDetail (price : ℚ) (downPayment : ℚ := 0)
    (months : ℕ := 36) : ℚ :=
  let loanAmount := price - downPayment
  let monthlyRate : ℚ := (125 / 1000) / 12
  loanAmount * (monthlyRate * (1 + monthlyRate) ^ months) /
    ((1 + monthlyRate) ^ months - 1)

/-- The static promo table `validCodes` of `handleApplyPromoCode`. -/
def validCodes (code : String) : Option ℚ :=
  if code = "SAVE10" then some (1 / 10)
  else if code = "FIRST15" then some (15 / 100)
  else if code = "PREMIUM20" then some (2 / 10)
  else none

/-- `handleApplyPromoCode`: the new `promoDiscount` state after applying
`code` with current discount `promoDiscount`. A matched code (every table
value is truthy) sets the discount; an unmatched code only raises a toast
and leaves the state alone. -/
def handleApplyPromoCode (code : String) (promoDiscount : ℚ) : ℚ :=
  match validCodes code with
  | some discount => discount
  | none => promoDiscount

/-- `discountAmount = selectedTotal * promoDiscount` of the Cart page. -/
def discountAmount (selectedTotal promoDiscount : ℚ) : ℚ :=
  selectedTotal * promoDiscount

/-- `finalTotal = selectedTotal - discountAmount` of the Cart page. -/
def finalTotal (selectedTotal promoDiscount : ℚ) : ℚ :=
  selectedTotal - discountAmount selectedTotal promoDiscount

/-- `calculateSelectedTotal` of the Cart page: sum of
`(item.car?.price || 0) * item.quantity` over the selected items. -/
def calculateSelectedTotal (cartItems : List CartItem)
    (selectedItems : List String) : ℚ :=
  ((cartItems.filter (fun item => selectedItems.contains item._id)).map
    itemContribution).sum

/-- One Cart Synchronization Layer operation together with the
nondeterministic environment values it consumes (`newId` and `now` for
`addToCart`, the catalog snapshot the call sees). -/
inductive CartOp where
  | add (cat : Catalog) (newId now carId : String) (options : CartItemPatch)
  | update (cat : Catalog) (itemId : String) (updates : CartItemPatch)
  | remove (cat : Catalog) (itemId : String)
  | clear

/-- The storage slot after running one operation (the slot is unchanged
when the operation throws). -/
def CartOp.apply (op : CartOp) (slot : CartSlot) : CartSlot :=
  match op with
  | .add cat newId now carId options => (addToCart cat newId now carId options slot).2
  | .update cat itemId updates => (updateCartItem cat itemId updates slot).2
  | .remove cat itemId => (removeFromCart cat itemId slot).2
  | .clear => (clearCart slot).2

/-- Run a sequence of operations left to right. -/
def runOps (ops : List CartOp) (slot : CartSlot) : CartSlot :=
  ops.foldl (fun s op => op.apply s) slot

/-- The per-product uniqueness invariant: the stored sequence has no two
line items with the same `carId`. -/
def NoDupCarIds (slot : CartSlot) : Prop :=
  match slot with
  | .stored items => (items.map CartItem.carId).Nodup
  | _ => True

instance (slot : CartSlot) : Decidable (NoDupCarIds slot) := by
  unfold NoDupCarIds
  cases slot <;> infer_instance

/-- An operation that never writes the `carId` field through caller
options or an update patch. -/
def CartOp.NoCarIdOverride (op : CartOp) : Prop :=
  match op with
  | .add _ _ _ _ options => options.carId = none
  | .update _ _ updates => updates.carId = none
  | .remove _ _ => True
  | .clear => True

instance (op : CartOp) : Decidable op.NoCarIdOverride := by
  unfold CartOp.NoCarIdOverride
  cases op <;> infer_instance

/-! ### Basic facts about enrichment and patching -/

theorem enrichItem_carId (cat : Catalog) (it : CartItem) :
    (enrichItem cat it).carId = it.carId := by
  unfold enrichItem
  cases cat it.carId <;> rfl

theorem enrichItem_fst (cat : Catalog) (it : CartItem) :
    (enrichItem cat it)._id = it._id := by
  unfold enrichItem
  cases cat it.carId <;> rfl

theorem enrichItem_quantity (cat : Catalog) (it : CartItem) :
    (enrichItem cat it).quantity = it.quantity := by
  unfold enrichItem
  cases cat it.carId <;> rfl

theorem enrichItem_idem (cat : Catalog) (it : CartItem) :
    enrichItem cat (enrichItem cat it) = enrichItem cat it := by
  cases h : cat it.carId <;> simp [enrichItem, h]

theorem map_enrichItem_map_carId (cat : Catalog) (l : List CartItem) :
    (l.map (enrichItem cat)).map CartItem.carId = l.map CartItem.carId := by
  rw [List.map_map]
  exact List.map_congr_left fun it _ => enrichItem_carId cat it

theorem map_enrichItem_idem (cat : Catalog) (l : List CartItem) :
    (l.map (enrichItem cat)).map (enrichItem cat) = l.map (enrichItem cat) := by
  rw [List.map_map]
  exact List.map_congr_left fun it _ => enrichItem_idem cat it

theorem applyPatch_carId (it : CartItem) (p : CartItemPatch) :
    (applyPatch it p).carId = p.carId.getD it.carId := rfl

theorem applyPatch_quantity (it : CartItem) (p : CartItemPatch) :
    (applyPatch it p).quantity = p.quantity.getD it.quantity := rfl

theorem applyPatch_empty (it : CartItem) :
    applyPatch it CartItemPatch.empty = it := rfl

theorem applyPatch_car_none (it : CartItem) (p : CartItemPatch) (hp : p.car = none) :
    (applyPatch it p).car = it.car := by
  unfold applyPatch
  rw [hp]

/-- `replaceFirst` with a `carId`-free patch applied to the item `find?`
located leaves the stored `carId` sequence unchanged. -/
theorem replaceFirst_map_carId (itemId : String)
    (p : CartItemPatch) (hp : p.carId = none) :
    ∀ (l : List CartItem) (x : CartItem),
      l.find? (fun it => it._id == itemId) = some x →
      (replaceFirst l itemId (applyPatch x p)).map CartItem.carId =
        l.map CartItem.carId := by
  intro l
  induction l with
  | nil => intro x hx; cases hx
  | cons a rest ih =>
    intro x hx
    by_cases h : (a._id == itemId) = true
    · rw [@List.find?_cons_of_pos _ (fun it => it._id == itemId) a rest h] at hx
      cases hx
      unfold replaceFirst
      rw [if_pos h]
      simp [applyPatch_carId, hp]
    · rw [@List.find?_cons_of_neg _ (fun it => it._id == itemId) a rest h] at hx
      unfold replaceFirst
      rw [if_neg h]
      simp only [List.map_cons]
      rw [ih x hx]

/-- Every member of `replaceFirst l itemId y` is a member of `l` or is `y`. -/
theorem mem_replaceFirst (l : List CartItem) (itemId : String) (y : CartItem) :
    ∀ it ∈ replaceFirst l itemId y, it ∈ l ∨ it = y := by
  induction l with
  | nil => intro it h; cases h
  | cons a rest ih =>
    intro it h
    unfold replaceFirst at h
    by_cases ha : (a._id == itemId) = true
    · rw [if_pos ha] at h
      rcases List.mem_cons.1 h with h | h
      · right; exact h
      · left; exact List.mem_cons_of_mem _ h
    · rw [if_neg ha] at h
      rcases List.mem_cons.1 h with h | h
      · left; rw [h]; exact List.mem_cons_self _ _
      · rcases ih it h with h' | h'
        · left; exact List.mem_cons_of_mem _ h'
        · right; exact h'

/-- The removal predicate `item._id !== itemId` only reads `_id`, so it
commutes with enrichment. -/
theorem filter_notId_map_enrich (cat : Catalog) (itemId : String)
    (l : List CartItem) :
    (l.map (enrichItem cat)).filter (fun it => !(it._id == itemId)) =
      (l.filter (fun it => !(it._id == itemId))).map (enrichItem cat) := by
  rw [List.filter_map]
  congr 1
  apply List.filter_congr
  intro it _
  simp [Function.comp, enrichItem_fst]

/-- Re-reading (enriching again) and re-filtering an already removed-and-
persisted sequence changes nothing. -/
theorem enrich_filter_stable (cat : Catalog) (itemId : String)
    (items : List CartItem) :
    ((((items.map (enrichItem cat)).filter
        (fun it => !(it._id == itemId))).map (enrichItem cat)).filter
        (fun it => !(it._id == itemId))) =
      (items.map (enrichItem cat)).filter (fun it => !(it._id == itemId)) := by
  rw [filter_notId_map_enrich, List.filter_filter]
  have h1 : ((items.map (enrichItem cat)).filter
      (fun it => !(it._id == itemId) && !(it._id == itemId))) =
      (items.map (enrichItem cat)).filter (fun it => !(it._id == itemId)) := by
    apply List.filter_congr
    intro it _
    rw [Bool.and_self]
  rw [h1, filter_notId_map_enrich, map_enrichItem_idem]

theorem enrichItem_car_of_some (cat : Catalog) (src : CartItem) (c : Car)
    (hc : cat src.carId = some c) : (enrichItem cat src).car = some c := by
  simp [enrichItem, hc]

theorem enrichItem_car_none (cat : Catalog) (src : CartItem)
    (h : (enrichItem cat src).car = none) : cat src.carId = none := by
  cases hc : cat src.carId with
  | none => rfl
  | some c => rw [enrichItem_car_of_some cat src c hc] at h; cases h

/-! ### The total as a sum over the resolved items -/

theorem foldl_add_itemContribution (l : List CartItem) (a : ℚ) :
    l.foldl (fun total item => total + itemContribution item) a =
      a + (l.map itemContribution).sum := by
  induction l generalizing a with
  | nil => simp
  | cons it rest ih =>
    simp only [List.foldl_cons, List.map_cons, List.sum_cons]
    rw [ih, add_assoc]

theorem sum_itemContribution_filter_resolved (l : List CartItem) :
    (l.map itemContribution).sum =
      ((l.filter (fun it => it.car.isSome)).map itemContribution).sum := by
  induction l with
  | nil => rfl
  | cons it rest ih =>
    cases h : it.car with
    | none =>
      have hc : itemContribution it = 0 := by simp [itemContribution, h]
      simp [List.filter_cons, h, hc, ih]
    | some c => simp [List.filter_cons, h, ih]

/-! ### Preservation of the one-item-per-car invariant -/

theorem NoDupCarIds_apply (op : CartOp) (slot : CartSlot)
    (hop : op.NoCarIdOverride) (h : NoDupCarIds slot) :
    NoDupCarIds (op.apply slot) := by
  cases op with
  | clear => simp [CartOp.apply, clearCart, NoDupCarIds]
  | remove cat itemId =>
    cases slot with
    | missing => simp [CartOp.apply, removeFromCart, getCartItems, loadStored, NoDupCarIds]
    | corrupt => simp [CartOp.apply, removeFromCart, getCartItems, loadStored, NoDupCarIds]
    | stored items =>
      have hred : (CartOp.remove cat itemId).apply (CartSlot.stored items) =
          CartSlot.stored ((items.map (enrichItem cat)).filter
            (fun it => !(it._id == itemId))) := rfl
      rw [hred]
      show (((items.map (enrichItem cat)).filter
          (fun it => !(it._id == itemId))).map CartItem.carId).Nodup
      have hsub : (((items.map (enrichItem cat)).filter
          (fun it => !(it._id == itemId))).map CartItem.carId).Sublist
          ((items.map (enrichItem cat)).map CartItem.carId) :=
        (List.filter_sublist _).map _
      rw [map_enrichItem_map_carId] at hsub
      exact List.Nodup.sublist hsub h
  | update cat itemId updates =>
    cases slot with
    | missing => simp [CartOp.apply, updateCartItem, getCartItems, loadStored, NoDupCarIds]
    | corrupt => simp [CartOp.apply, updateCartItem, getCartItems, loadStored, NoDupCarIds]
    | stored items =>
      cases hfind : (items.map (enrichItem cat)).find? (fun it => it._id == itemId) with
      | none =>
        have hred : (CartOp.update cat itemId updates).apply (CartSlot.stored items) =
            CartSlot.stored items := by
          simp [CartOp.apply, updateCartItem, getCartItems, loadStored, hfind]
        rw [hred]; exact h
      | some x =>
        have hred : (CartOp.update cat itemId updates).apply (CartSlot.stored items) =
            CartSlot.stored (replaceFirst (items.map (enrichItem cat)) itemId
              (applyPatch x updates)) := by
          simp [CartOp.apply, updateCartItem, getCartItems, loadStored, hfind]
        rw [hred]
        show ((replaceFirst (items.map (enrichItem cat)) itemId
            (applyPatch x updates)).map CartItem.carId).Nodup
        rw [replaceFirst_map_carId itemId updates hop _ x hfind,
          map_enrichItem_map_carId]
        exact h
  | add cat newId now carId options =>
    cases slot with
    | missing =>
      simp [CartOp.apply, addToCart, getCartItems, loadStored, NoDupCarIds]
    | corrupt => simp [CartOp.apply, addToCart, getCartItems, loadStored, NoDupCarIds]
    | stored items =>
      cases hany : (items.map (enrichItem cat)).any (fun it => it.carId == carId) with
      | true =>
        have hred : (CartOp.add cat newId now carId options).apply (CartSlot.stored items) =
            CartSlot.stored items := by
          simp [CartOp.apply, addToCart, getCartItems, loadStored, hany]
        rw [hred]; exact h
      | false =>
        have hred : (CartOp.add cat newId now carId options).apply (CartSlot.stored items) =
            CartSlot.stored ((items.map (enrichItem cat)) ++
              [applyPatch (newCartItem newId now carId) options]) := by
          simp [CartOp.apply, addToCart, getCartItems, loadStored, hany]
        rw [hred]
        show (((items.map (enrichItem cat)) ++
            [applyPatch (newCartItem newId now carId) options]).map CartItem.carId).Nodup
        have hcid : (applyPatch (newCartItem newId now carId) options).carId = carId := by
          rw [applyPatch_carId, hop]; rfl
        rw [List.map_append, map_enrichItem_map_carId, List.map_singleton, hcid]
        rw [List.nodup_append]
        refine ⟨h, List.nodup_singleton _, ?_⟩
        intro a ha hb
        rw [List.mem_singleton] at hb
        subst hb
        rcases List.mem_map.1 ha with ⟨src, hsrc, hcar⟩
        have hfalse := List.any_eq_false.1 hany (enrichItem cat src)
          (List.mem_map_of_mem _ hsrc)
        apply hfalse
        simp [enrichItem_carId, hcar]

/-! ### Concrete fixtures used by witnesses and counterexamples -/

/-- A catalog in which every fetch fails. -/
def catEmpty : Catalog := fun _ => none

/-- A concrete cart line item referencing the product `car1`. -/
def testItem : CartItem :=
  { _id := "i1"
    userId := "guest"
    carId := "car1"
    car := none
    quantity := 1
    addedAt := "t0"
    notes := none
    financing := none }

/-- A concrete catalog product. -/
def testCarA : Car :=
  { _id := "c1"
    brand := "BMW"
    model := "X5"
    year := 2020
    price := 100
    mileage := 1000
    fuelType := "petrol"
    transmission := "manual"
    bodyType := "suv"
    engineVolume := 3
    power := 249
    color := "black"
    vin := "VIN1"
    status := "available"
    images := []
    features := []
    description := ""
    isNew := false
    isHit := false
    createdAt := "t"
    updatedAt := "t" }

/-- A second, distinct product snapshot. -/
def testCarB : Car := { testCarA with _id := "c2", price := 200 }

/-- A catalog that resolves `car1` to `testCarA` and fails everywhere else. -/
def catA : Catalog := fun cid => if cid = "car1" then some testCarA else none

/-! ### C2 -/

/-- C2, counterexample: when the stored `cart` value fails to deserialize,
the load inside `getCartItems` does not return the empty sequence — the
`JSON.parse` exception propagates, because there is no try/catch around it. -/
theorem loadStored_corrupt_cex :
    loadStored CartSlot.corrupt = Except.error CartError.parseFailure ∧
    loadStored CartSlot.corrupt ≠ Except.ok ([] : List CartItem) :=
  ⟨rfl, fun h => Except.noConfusion h⟩

/-- C2, amended: the load returns the stored sequence, and the empty
sequence when no value exists under the key; when the stored value fails
to deserialize the operation fails with the parse error (both in the bare
load and through `getCartItems`) instead of returning the empty sequence. -/
theorem loadStored_spec :
    loadStored CartSlot.missing = Except.ok ([] : List CartItem) ∧
    (∀ items : List CartItem, loadStored (CartSlot.stored items) = Except.ok items) ∧
    loadStored CartSlot.corrupt = Except.error CartError.parseFailure ∧
    (∀ cat : Catalog,
      getCartItems cat CartSlot.corrupt = Except.error CartError.parseFailure) :=
  ⟨rfl, fun _ => rfl, rfl, fun _ => rfl⟩

/-! ### C3 -/

/-- C3: `addToCart` on a product already in the stored sequence fails with
the duplicate-item error and leaves the persisted sequence exactly as it
was (the throw happens before any write). -/
theorem addToCart_duplicate_rejected (cat : Catalog) (newId now carId : String)
    (options : CartItemPatch) (items : List CartItem)
    (hdup : ∃ it ∈ items, it.carId = carId) :
    addToCart cat newId now carId options (CartSlot.stored items) =
      (Except.error CartError.duplicateItem, CartSlot.stored items) := by
  obtain ⟨it, hit, hc⟩ := hdup
  have hany : (items.map (enrichItem cat)).any (fun x => x.carId == carId) = true := by
    rw [List.any_eq_true]
    exact ⟨enrichItem cat it, List.mem_map_of_mem _ hit, by simp [enrichItem_carId, hc]⟩
  simp [addToCart, getCartItems, loadStored, hany]

/-- C3, witness at a concrete duplicate. -/
theorem addToCart_duplicate_rejected_witness :
    addToCart catEmpty "9" "t9" "car1" CartItemPatch.empty (CartSlot.stored [testItem]) =
      (Except.error CartError.duplicateItem, CartSlot.stored [testItem]) :=
  addToCart_duplicate_rejected catEmpty "9" "t9" "car1" CartItemPatch.empty [testItem]
    ⟨testItem, by decide⟩

/-! ### C4 -/

/-- C4: the financing calculator computes
`loanAmount = price - downPayment`; a zero monthly rate returns
`loanAmount / termMonths` (so `payment(1000000, 0, 36, 0) = 1000000 / 36`),
otherwise it returns the amortization formula
`loanAmount * r(1+r)^n / ((1+r)^n - 1)` (so a fully paid-down loan has
payment 0 for every positive term and rate). -/
theorem calculateMonthlyPayment_spec :
    (∀ (price downPayment : ℚ) (months : ℕ) (rate : ℚ),
        rate / 100 / 12 = 0 →
        calculateMonthlyPayment price downPayment months rate =
          (price - downPayment) / months) ∧
    calculateMonthlyPayment 1000000 0 36 0 = 1000000 / 36 ∧
    (∀ (price downPayment : ℚ) (months : ℕ) (rate : ℚ),
        rate / 100 / 12 ≠ 0 →
        calculateMonthlyPayment price downPayment months rate =
          (price - downPayment) *
            ((rate / 100 / 12) * (1 + rate / 100 / 12) ^ months) /
            ((1 + rate / 100 / 12) ^ months - 1)) ∧
    (∀ (P : ℚ) (N : ℕ) (rate : ℚ), 0 < N → 0 < rate →
        calculateMonthlyPayment P P N rate = 0) := by
  refine ⟨?_, ?_, ?_, ?_⟩
  · intro price downPayment months rate h
    simp [calculateMonthlyPayment, h]
  · norm_num [calculateMonthlyPayment]
  · intro price downPayment months rate h
    simp [calculateMonthlyPayment, h]
  · intro P N rate _hN hrate
    have hr : rate / 100 / 12 ≠ 0 :=
      ne_of_gt (div_pos (div_pos hrate (by norm_num)) (by norm_num))
    simp [calculateMonthlyPayment, hr, sub_self]

/-- C4, witness: a fully paid-down loan at 12.5% over 12 months costs 0
per month. -/
theorem calculateMonthlyPayment_spec_witness :
    calculateMonthlyPayment 500000 500000 12 (25 / 2) = 0 :=
  calculateMonthlyPayment_spec.2.2.2 500000 12 (25 / 2) (by norm_num) (by norm_num)

/-! ### C5 -/

/-- C5: adding a product not yet in the cart (with no overrides) and then
reading the cart yields exactly one line item referencing that product,
and that item has quantity 1. -/
theorem addToCart_new_then_getItems (cat : Catalog) (newId now P : String)
    (slot : CartSlot) (items0 : List CartItem)
    (hload : getCartItems cat slot = Except.ok items0)
    (hP : ∀ it ∈ items0, it.carId ≠ P) :
    ∃ items1,
      getCartItems cat
        (addToCart cat newId now P CartItemPatch.empty slot).2 = Except.ok items1 ∧
      (items1.filter (fun it => it.carId == P)).length = 1 ∧
      ∀ it ∈ items1, it.carId = P → it.quantity = 1 := by
  have hany : items0.any (fun it => it.carId == P) = false := by
    rw [List.any_eq_false]
    intro it hit
    simp [hP it hit]
  have hslot : (addToCart cat newId now P CartItemPatch.empty slot).2 =
      CartSlot.stored (items0 ++ [newCartItem newId now P]) := by
    simp [addToCart, hload, hany, applyPatch_empty]
  rw [hslot]
  refine ⟨(items0 ++ [newCartItem newId now P]).map (enrichItem cat), rfl, ?_, ?_⟩
  · have h0 : (items0.map (enrichItem cat)).filter (fun it => it.carId == P) = [] := by
      rw [List.filter_eq_nil_iff]
      intro a ha
      rcases List.mem_map.1 ha with ⟨src, hsrc, rfl⟩
      simp [enrichItem_carId, hP src hsrc]
    rw [List.map_append, List.filter_append, h0]
    simp [enrichItem_carId, newCartItem]
  · intro it hit hcar
    rw [List.map_append] at hit
    rcases List.mem_append.1 hit with h | h
    · rcases List.mem_map.1 h with ⟨src, hsrc, rfl⟩
      rw [enrichItem_carId] at hcar
      exact absurd hcar (hP src hsrc)
    · rw [List.map_singleton, List.mem_singleton] at h
      subst h
      rw [enrichItem_quantity]
      rfl

/-- C5, witness: adding `carX` to the empty cart. -/
theorem addToCart_new_then_getItems_witness :
    ∃ items1,
      getCartItems catEmpty
        (addToCart catEmpty "1" "t1" "carX" CartItemPatch.empty CartSlot.missing).2 =
          Except.ok items1 ∧
      (items1.filter (fun it => it.carId == "carX")).length = 1 ∧
      ∀ it ∈ items1, it.carId = "carX" → it.quantity = 1 :=
  addToCart_new_then_getItems catEmpty "1" "t1" "carX" CartSlot.missing [] rfl
    (by simp)

/-! ### C6 -/

/-- C6: `getCartTotal` equals the sum of `price * quantity` over the
(enriched) items that carry a resolved product, and an item without a
resolved product contributes exactly 0 (`itemContribution` is the
summand `(item.car?.price || 0) * item.quantity`). -/
theorem getCartTotal_spec :
    (∀ (cat : Catalog) (items : List CartItem),
        getCartTotal cat (CartSlot.stored items) =
          Except.ok ((((items.map (enrichItem cat)).filter
            (fun it => it.car.isSome)).map itemContribution).sum)) ∧
    (∀ cat : Catalog, getCartTotal cat CartSlot.missing = Except.ok 0) ∧
    (∀ it : CartItem, it.car = none → itemContribution it = 0) := by
  refine ⟨?_, fun _ => rfl, ?_⟩
  · intro cat items
    have h1 : getCartTotal cat (CartSlot.stored items) =
        Except.ok (((items.map (enrichItem cat)).map itemContribution).sum) := by
      show Except.ok ((items.map (enrichItem cat)).foldl
        (fun total item => total + itemContribution item) 0) = _
      rw [foldl_add_itemContribution, zero_add]
    rw [h1, sum_itemContribution_filter_resolved]
  · intro it h
    simp [itemContribution, h]

/-- C6, witness: an unresolved concrete item contributes 0. -/
theorem getCartTotal_spec_witness : itemContribution testItem = 0 :=
  getCartTotal_spec.2.2 testItem rfl

/-! ### C7 -/

/-- C7: `removeFromCart` is idempotent on the persisted slot — a second
removal of the same id writes back exactly the slot the first removal
left — and removing an id absent from the stored sequence (also from a
missing cart) succeeds without error. -/
theorem removeFromCart_idempotent :
    (∀ (cat : Catalog) (itemId : String) (slot : CartSlot),
        (removeFromCart cat itemId (removeFromCart cat itemId slot).2).2 =
          (removeFromCart cat itemId slot).2) ∧
    (∀ (cat : Catalog) (itemId : String) (items : List CartItem),
        (∀ it ∈ items, it._id ≠ itemId) →
        (removeFromCart cat itemId (CartSlot.stored items)).1 = Except.ok ()) ∧
    (∀ (cat : Catalog) (itemId : String),
        (removeFromCart cat itemId CartSlot.missing).1 = Except.ok ()) := by
  refine ⟨?_, ?_, fun _ _ => rfl⟩
  · intro cat itemId slot
    cases slot with
    | missing => rfl
    | corrupt => rfl
    | stored items =>
      show CartSlot.stored ((((items.map (enrichItem cat)).filter
          (fun it => !(it._id == itemId))).map (enrichItem cat)).filter
          (fun it => !(it._id == itemId))) =
        CartSlot.stored ((items.map (enrichItem cat)).filter
          (fun it => !(it._id == itemId)))
      rw [enrich_filter_stable]
  · intro cat itemId items _habs
    rfl

/-- C7, witness: removing an absent id from a concrete one-item cart
succeeds. -/
theorem removeFromCart_idempotent_witness :
    (removeFromCart catEmpty "other" (CartSlot.stored [testItem])).1 = Except.ok () :=
  removeFromCart_idempotent.2.1 catEmpty "other" [testItem] (by decide)

/-! ### C8 -/

/-- C8: applying `SAVE10` to a selected subtotal of 1,000,000 sets the
multiplicative discount 0.1, yielding discount amount 100,000 and final
total 900,000; a code outside the static table leaves a zero discount at
zero and the final total equal to the subtotal, for every subtotal. -/
theorem promo_spec :
    handleApplyPromoCode "SAVE10" 0 = 1 / 10 ∧
    discountAmount 1000000 (handleApplyPromoCode "SAVE10" 0) = 100000 ∧
    finalTotal 1000000 (handleApplyPromoCode "SAVE10" 0) = 900000 ∧
    (∀ code : String, validCodes code = none →
      handleApplyPromoCode code 0 = 0 ∧
      ∀ subtotal : ℚ, finalTotal subtotal (handleApplyPromoCode code 0) = subtotal) := by
  refine ⟨?_, ?_, ?_, ?_⟩
  · norm_num [handleApplyPromoCode, validCodes]
  · norm_num [handleApplyPromoCode, validCodes, discountAmount]
  · norm_num [handleApplyPromoCode, validCodes, finalTotal, discountAmount]
  · intro code hcode
    refine ⟨by simp [handleApplyPromoCode, hcode], ?_⟩
    intro subtotal
    simp [handleApplyPromoCode, hcode, finalTotal, discountAmount]

/-- C8, witness: a code outside the table. -/
theorem promo_spec_witness :
    handleApplyPromoCode "BOGUS" 0 = 0 ∧
    finalTotal 42 (handleApplyPromoCode "BOGUS" 0) = 42 :=
  ⟨(promo_spec.2.2.2 "BOGUS" (by decide)).1,
    (promo_spec.2.2.2 "BOGUS" (by decide)).2 42⟩

/-! ### C9 -/

/-- C9: every field present in the caller options takes precedence over
the generated defaults of the new item — quantity, the generated `_id`,
`userId`, `addedAt` and `carId` itself — and the item persisted at the end
of the stored sequence is exactly the defaults with the options spread
over them (the duplicate check having been performed against the
requested product only). -/
theorem addToCart_options_precedence (cat : Catalog) (newId now carId : String)
    (options : CartItemPatch) (slot : CartSlot) (items0 : List CartItem)
    (hload : getCartItems cat slot = Except.ok items0)
    (habsent : items0.any (fun it => it.carId == carId) = false) :
    (addToCart cat newId now carId options slot).2 =
      CartSlot.stored (items0 ++ [applyPatch (newCartItem newId now carId) options]) ∧
    (applyPatch (newCartItem newId now carId) options).quantity =
      options.quantity.getD 1 ∧
    (applyPatch (newCartItem newId now carId) options).carId =
      options.carId.getD carId ∧
    (applyPatch (newCartItem newId now carId) options)._id =
      options._id.getD newId ∧
    (applyPatch (newCartItem newId now carId) options).userId =
      options.userId.getD "guest" ∧
    (applyPatch (newCartItem newId now carId) options).addedAt =
      options.addedAt.getD now := by
  refine ⟨?_, rfl, rfl, rfl, rfl, rfl⟩
  simp [addToCart, hload, habsent]

/-- The options of the C9 witness: an explicit quantity 0 and a `carId`
pointing at a different product than the one the duplicate check used. -/
def optsQ : CartItemPatch := { carId := some "carQ", quantity := some 0 }

/-- C9, witness: `optsQ` overrides quantity and `carId` of the persisted
item. -/
theorem addToCart_options_precedence_witness :
    (addToCart catEmpty "1" "t1" "carP" optsQ CartSlot.missing).2 =
      CartSlot.stored ([] ++ [applyPatch (newCartItem "1" "t1" "carP") optsQ]) ∧
    (applyPatch (newCartItem "1" "t1" "carP") optsQ).quantity =
      optsQ.quantity.getD 1 ∧
    (applyPatch (newCartItem "1" "t1" "carP") optsQ).carId =
      optsQ.carId.getD "carP" ∧
    (applyPatch (newCartItem "1" "t1" "carP") optsQ)._id =
      optsQ._id.getD "1" ∧
    (applyPatch (newCartItem "1" "t1" "carP") optsQ).userId =
      optsQ.userId.getD "guest" ∧
    (applyPatch (newCartItem "1" "t1" "carP") optsQ).addedAt =
      optsQ.addedAt.getD "t1" :=
  addToCart_options_precedence catEmpty "1" "t1" "carP" optsQ CartSlot.missing [] rfl rfl

/-! ### C1 -/

/-- C1, counterexample: a sequence of two Cart Synchronization Layer
operations that leaves the persisted cart with two line items carrying the
same product identifier — the second `addToCart` passes the duplicate
check against `carQ` but persists `carP` through its `carId` override. -/
theorem carId_unique_cex :
    ¬ NoDupCarIds (runOps
      [CartOp.add catEmpty "1" "t1" "carP" CartItemPatch.empty,
       CartOp.add catEmpty "2" "t2" "carQ" { carId := some "carP" }]
      CartSlot.missing) := by
  decide

/-- C1, amended: starting from any slot satisfying the invariant (in
particular the initial missing slot), every sequence of operations whose
`addToCart` options and `updateCartItem` patches do not set `carId` keeps
at most one line item per product identifier in the persisted cart. -/
theorem carId_unique_of_noOverride (ops : List CartOp) (slot : CartSlot)
    (h : NoDupCarIds slot) (hops : ∀ op ∈ ops, op.NoCarIdOverride) :
    NoDupCarIds (runOps ops slot) := by
  induction ops generalizing slot with
  | nil => exact h
  | cons op rest ih =>
    rw [runOps, List.foldl_cons]
    exact ih (op.apply slot)
      (NoDupCarIds_apply op slot (hops op (List.mem_cons_self _ _)) h)
      (fun o ho => hops o (List.mem_cons_of_mem _ ho))

/-- C1, witness: a concrete override-free add / update / remove sequence
from the initial slot. -/
theorem carId_unique_of_noOverride_witness :
    NoDupCarIds (runOps
      [CartOp.add catEmpty "1" "t1" "carP" CartItemPatch.empty,
       CartOp.add catEmpty "2" "t2" "carQ" CartItemPatch.empty,
       CartOp.update catEmpty "2" { quantity := some 3 },
       CartOp.remove catEmpty "1"]
      CartSlot.missing) :=
  carId_unique_of_noOverride _ CartSlot.missing trivial (by decide)

/-! ### C10 -/

/-- C10, counterexample: a patch that itself carries a `car` field wins
over the snapshot resolved during the call — `car1` resolves to `testCarA`
during the update, yet the persisted item carries `testCarB` from the
patch. -/
theorem updateCartItem_patch_car_cex :
    (updateCartItem catA "i1" { car := some testCarB }
        (CartSlot.stored [testItem])).2 =
      CartSlot.stored [{ testItem with car := some testCarB }] ∧
    catA testItem.carId = some testCarA ∧
    testCarB ≠ testCarA := by
  refine ⟨rfl, rfl, ?_⟩
  decide

/-- C10, amended: after a successful `updateCartItem` whose patch does not
set `car`, and after any `removeFromCart`, every line item in the
persisted sequence descends from a previously stored item and carries
exactly the enrichment result of that item computed during the call: the
resolved snapshot when that item's fetch succeeded, and an absent `car`
only when its fetch failed. -/
theorem update_remove_persist_enriched :
    (∀ (cat : Catalog) (itemId : String) (patch : CartItemPatch)
        (items items1 : List CartItem),
        patch.car = none →
        (updateCartItem cat itemId patch (CartSlot.stored items)).2 =
          CartSlot.stored items1 →
        (∃ r, (updateCartItem cat itemId patch (CartSlot.stored items)).1 =
          Except.ok r) →
        ∀ it ∈ items1, ∃ src ∈ items,
          it.car = (enrichItem cat src).car ∧
          (∀ c, cat src.carId = some c → it.car = some c) ∧
          (it.car = none → cat src.carId = none)) ∧
    (∀ (cat : Catalog) (itemId : String) (items items1 : List CartItem),
        (removeFromCart cat itemId (CartSlot.stored items)).2 =
          CartSlot.stored items1 →
        ∀ it ∈ items1, ∃ src ∈ items,
          it.car = (enrichItem cat src).car ∧
          (∀ c, cat src.carId = some c → it.car = some c) ∧
          (it.car = none → cat src.carId = none)) := by
  constructor
  · intro cat itemId patch items items1 hpc hslot hok
    cases hfind : (items.map (enrichItem cat)).find? (fun it => it._id == itemId) with
    | none =>
      exfalso
      obtain ⟨r, hr⟩ := hok
      simp [updateCartItem, getCartItems, loadStored, hfind] at hr
    | some x =>
      have hred : (updateCartItem cat itemId patch (CartSlot.stored items)).2 =
          CartSlot.stored (replaceFirst (items.map (enrichItem cat)) itemId
            (applyPatch x patch)) := by
        simp [updateCartItem, getCartItems, loadStored, hfind]
      rw [hred] at hslot
      have hitems1 : items1 = replaceFirst (items.map (enrichItem cat)) itemId
          (applyPatch x patch) := (CartSlot.stored.inj hslot).symm
      subst hitems1
      intro it hit
      rcases mem_replaceFirst _ _ _ it hit with hmem | heq
      · rcases List.mem_map.1 hmem with ⟨src, hsrc, rfl⟩
        exact ⟨src, hsrc, rfl, fun c hc => enrichItem_car_of_some cat src c hc,
          fun hnone => enrichItem_car_none cat src hnone⟩
      · subst heq
        rcases List.mem_map.1 (List.mem_of_find?_eq_some hfind) with ⟨src, hsrc, rfl⟩
        have hcar : (applyPatch (enrichItem cat src) patch).car =
            (enrichItem cat src).car := applyPatch_car_none _ _ hpc
        refine ⟨src, hsrc, hcar, ?_, ?_⟩
        · intro c hc
          rw [hcar]
          exact enrichItem_car_of_some cat src c hc
        · intro hnone
          rw [hcar] at hnone
          exact enrichItem_car_none cat src hnone
  · intro cat itemId items items1 hslot it hit
    have hitems1 : items1 = (items.map (enrichItem cat)).filter
        (fun x => !(x._id == itemId)) := by
      have hred : (removeFromCart cat itemId (CartSlot.stored items)).2 =
          CartSlot.stored ((items.map (enrichItem cat)).filter
            (fun x => !(x._id == itemId))) := rfl
      rw [hred] at hslot
      exact (CartSlot.stored.inj hslot).symm
    subst hitems1
    rcases List.mem_map.1 (List.mem_filter.1 hit).1 with ⟨src, hsrc, rfl⟩
    exact ⟨src, hsrc, rfl, fun c hc => enrichItem_car_of_some cat src c hc,
      fun hnone => enrichItem_car_none cat src hnone⟩

/-- C10, witness: a quantity-only update of a concrete one-item cart under
a catalog that resolves the item; the persisted item carries the snapshot
resolved during the call. -/
theorem update_remove_persist_enriched_witness :
    ∃ src ∈ [testItem],
      ({ testItem with car := some testCarA, quantity := 2 } : CartItem).car =
        (enrichItem catA src).car ∧
      (∀ c, catA src.carId = some c →
        ({ testItem with car := some testCarA, quantity := 2 } : CartItem).car = some c) ∧
      (({ testItem with car := some testCarA, quantity := 2 } : CartItem).car = none →
        catA src.carId = none) :=
  update_remove_persist_enriched.1 catA "i1" { quantity := some 2 } [testItem]
    [{ testItem with car := some testCarA, quantity := 2 }] rfl rfl ⟨_, rfl⟩
    { testItem with car := some testCarA, quantity := 2 }
    (List.mem_cons_self _ _)
